import Mathlib

/-!
Verification of the T2C recycling-rewards backend (Go) against its
natural-language specification.

The development shallowly embeds the Go handlers into Lean:

* `float64` weights and cash amounts become exact rationals (`ℚ`); the Go
  conversion `int(x)` becomes `goTrunc` (truncation toward zero).
* The SQLite tables (`users`, `transactions`, `redemptions`,
  `station_sessions`) become lists of records inside a `DBState`; SQL
  `SELECT ... WHERE` becomes `List.find?`, `UPDATE` becomes `List.map`
  with a guard, `INSERT` appends a row with the `AUTOINCREMENT` counter.
* Each HTTP handler becomes a function from the caller identity, the
  decoded request body, the current time, and the database state to a
  result (`Except` of the JSON error response) paired with the new state.
  JSON-decoding failures and backing-store failures are outside the model;
  the handlers are given well-typed request structs and an always-
  succeeding store, exactly the happy-path/domain-error behaviour the
  spec describes.
* `time.Now()` is passed in as a natural-number timestamp `now`;
  `uuid.New()` for fresh session tokens is passed in as an argument.
-/

namespace T2C

/-- Go's `int(x)` conversion on a `float64`, modelled on exact rationals:
truncation toward zero (`-0.5 ↦ 0`, `1.5 ↦ 1`). -/
def goTrunc (q : ℚ) : Int := q.num.tdiv q.den

/-- The `materialRates` map of `part_000`:
plastic 10, glass 8, metal 15, paper 5 points per kg. -/
def materialRates (itemType : String) : Option Int :=
  if itemType = "plastic" then some 10
  else if itemType = "glass" then some 8
  else if itemType = "metal" then some 15
  else if itemType = "paper" then some 5
  else none

/-- `CalculatePoints` of `part_000`: 0 for unknown materials, otherwise
`int(weight * float64(rate))`. -/
def CalculatePoints (itemType : String) (weight : ℚ) : Int :=
  match materialRates itemType with
  | none => 0
  | some rate => goTrunc (weight * rate)

theorem goTrunc_of_nonneg (q : ℚ) (h : 0 ≤ q) : goTrunc q = ⌊q⌋ := by
  unfold goTrunc
  rw [Rat.floor_def]
  obtain ⟨m, hm⟩ := Int.eq_ofNat_of_zero_le (Rat.num_nonneg.mpr h)
  rw [hm]
  rfl

theorem materialRates_pos {itemType : String} {rate : Int}
    (h : materialRates itemType = some rate) : 0 < rate := by
  unfold materialRates at h
  split_ifs at h <;> simp_all <;> omega

/-- A row of the `users` table (the columns the core touches). -/
structure GoUser where
  id : Nat
  email : String
  totalPoints : Int
deriving DecidableEq

/-- A row of the `transactions` table (the points ledger). -/
structure Txn where
  id : Nat
  userId : Nat
  type : String
  amount : ℚ
  itemType : String
  weight : ℚ
  pointsEarned : Int
  stationId : Nat
  sessionTok : Option String
deriving DecidableEq

/-- A row of the `redemptions` table. -/
structure RedemptionRow where
  id : Nat
  userId : Nat
  pointsUsed : Int
  amountCash : ℚ
  method : String
  status : String
  accountInfo : String
deriving DecidableEq

/-- A row of the `station_sessions` table. -/
structure StationSession where
  id : Nat
  sessionTok : String
  stationId : String
  userId : Option Nat
  status : String
  authToken : Option String
  expiresAt : Nat
  endedAt : Option Nat
deriving DecidableEq

/-- The backing store: the four tables the core reads and writes, plus
the `AUTOINCREMENT` counters. -/
structure DBState where
  users : List GoUser
  transactions : List Txn
  redemptions : List RedemptionRow
  stationSessions : List StationSession
  nextUserId : Nat
  nextTxnId : Nat
  nextRedemptionId : Nat
  nextSessionId : Nat
deriving DecidableEq

/-- `SELECT ... FROM users WHERE id = ?`. -/
def findUser (s : DBState) (uid : Nat) : Option GoUser :=
  s.users.find? (fun u => u.id == uid)

/-- Whether a user row with this id exists. -/
def userExists (s : DBState) (uid : Nat) : Bool := (findUser s uid).isSome

/-- `SELECT total_points FROM users WHERE id = ?` with the scan error
ignored, as in the Go code: a missing row leaves the zero value 0. -/
def balanceOf (s : DBState) (uid : Nat) : Int :=
  ((findUser s uid).map GoUser.totalPoints).getD 0

/-- `SELECT ... FROM station_sessions WHERE session_token = ?`. -/
def findSession (s : DBState) (tok : String) : Option StationSession :=
  s.stationSessions.find? (fun ss => ss.sessionTok == tok)

/-- `UPDATE users SET total_points = total_points + ? WHERE id = ?`. -/
def updateUserPoints (s : DBState) (uid : Nat) (delta : Int) : DBState :=
  { s with users := s.users.map (fun u =>
      if u.id = uid then { u with totalPoints := u.totalPoints + delta } else u) }

/-- `UPDATE station_sessions SET ... WHERE id = ?`. -/
def updateSessionById (s : DBState) (sid : Nat) (f : StationSession → StationSession) :
    DBState :=
  { s with stationSessions := s.stationSessions.map (fun ss =>
      if ss.id = sid then f ss else ss) }

/-- `INSERT INTO transactions ...` (AUTOINCREMENT id). -/
def insertTxn (s : DBState) (t : Nat → Txn) : DBState :=
  { s with transactions := s.transactions ++ [t s.nextTxnId],
           nextTxnId := s.nextTxnId + 1 }

/-- The JSON error object `{success: false, error: ...}` with its HTTP
status code. -/
structure ApiErr where
  status : Nat
  msg : String
deriving DecidableEq

/-- Body of `POST /api/transactions` and `POST /api/station/deposit`. -/
structure DepositRequest where
  itemType : String
  weight : ℚ

/-- Success payload of `createTransaction` / `processDeposit`. -/
structure ManualDepositOut where
  txnId : Nat
  pointsEarned : Int
  totalPoints : Int
deriving DecidableEq

/-- `createTransaction` of `part_000` (manual-entry earn path): computes
points, rejects when they are 0, otherwise inserts the ledger row and
adds the points to `users.total_points` in one SQL transaction. -/
def createTransaction (userId : Nat) (req : DepositRequest) (s : DBState) :
    Except ApiErr ManualDepositOut × DBState :=
  let points := CalculatePoints req.itemType req.weight
  if points = 0 then (.error ⟨400, "Invalid item type"⟩, s)
  else
    let txnId := s.nextTxnId
    let s1 := insertTxn s (fun i =>
      ⟨i, userId, "deposit", 0, req.itemType, req.weight, points, 1, none⟩)
    let s2 := updateUserPoints s1 userId points
    (.ok ⟨txnId, points, balanceOf s2 userId⟩, s2)

/-- `processDeposit` of `part_000` (station hardware earn path); the Go
body is the same SQL sequence as `createTransaction`. -/
def processDeposit (userId : Nat) (req : DepositRequest) (s : DBState) :
    Except ApiErr ManualDepositOut × DBState :=
  let points := CalculatePoints req.itemType req.weight
  if points = 0 then (.error ⟨400, "Invalid item type"⟩, s)
  else
    let txnId := s.nextTxnId
    let s1 := insertTxn s (fun i =>
      ⟨i, userId, "deposit", 0, req.itemType, req.weight, points, 1, none⟩)
    let s2 := updateUserPoints s1 userId points
    (.ok ⟨txnId, points, balanceOf s2 userId⟩, s2)

/-- Body of `POST /api/redemption/redeem`. -/
structure RedeemRequest where
  points : Int
  method : String
  accountInfo : String

/-- Success payload of `redeemPoints`. -/
structure RedeemOut where
  redemptionId : Nat
  pointsRedeemed : Int
  amountCash : ℚ
  remainingPoints : Int
deriving DecidableEq

/-- `redeemPoints` of `part_001` (spend path): rejects `points <= 0`,
rejects `points > total_points`, otherwise inserts the redemption row,
deducts the points, and appends the negative-delta ledger row, all in
one SQL transaction.  `amountCash = points * 10` (100 points = Rp 1000). -/
def redeemPoints (userId : Nat) (req : RedeemRequest) (s : DBState) :
    Except ApiErr RedeemOut × DBState :=
  if req.points ≤ 0 then (.error ⟨400, "Invalid points amount"⟩, s)
  else
    let totalPoints := balanceOf s userId
    if totalPoints < req.points then (.error ⟨400, "Insufficient points"⟩, s)
    else
      let amountCash : ℚ := req.points * 10
      let redemptionId := s.nextRedemptionId
      let s1 := { s with
        redemptions := s.redemptions ++
          [⟨s.nextRedemptionId, userId, req.points, amountCash, req.method,
            "pending", req.accountInfo⟩],
        nextRedemptionId := s.nextRedemptionId + 1 }
      let s2 := updateUserPoints s1 userId (-req.points)
      let s3 := insertTxn s2 (fun i =>
        ⟨i, userId, "redemption", amountCash, "redemption", 0, -req.points, 1, none⟩)
      (.ok ⟨redemptionId, req.points, amountCash, balanceOf s3 userId⟩, s3)

/-- Body of `POST /api/request-session`. -/
structure RequestSessionRequest where
  stationId : String

/-- `requestSession` of `session.go`: inserts a fresh `pending` session
with a 5-minute (300 s) expiry.  The `uuid.New()` token is the `tok`
argument; the `UNIQUE` constraint on `session_token` turns a colliding
token into the 500 error of the failed `INSERT`. -/
def requestSession (tok : String) (req : RequestSessionRequest) (now : Nat)
    (s : DBState) : Except ApiErr Unit × DBState :=
  let stationId := if req.stationId = "" then "default" else req.stationId
  if (findSession s tok).isSome then (.error ⟨500, "Failed to create session"⟩, s)
  else
    (.ok (), { s with
      stationSessions := s.stationSessions ++
        [⟨s.nextSessionId, tok, stationId, none, "pending", none, now + 300, none⟩],
      nextSessionId := s.nextSessionId + 1 })

/-- What `checkSession` reports on success. -/
inductive CheckOut where
  | pending
  | connected (status : String) (authToken : Option String)
      (userId : Nat) (userBalance : Int)
deriving DecidableEq

/-- `checkSession` of `session.go`: polls a session; lazily marks it
`expired` (a write!) when `time.Now().After(expires_at)`; reports
`pending`, or the bound user's identity, stored auth token and balance. -/
def checkSession (req : String) (now : Nat) (s : DBState) :
    Except ApiErr CheckOut × DBState :=
  if req = "" then (.error ⟨400, "Session token is required"⟩, s)
  else
    match findSession s req with
    | none => (.error ⟨404, "Session not found"⟩, s)
    | some sess =>
      if sess.expiresAt < now then
        (.error ⟨401, "Session has expired"⟩,
         updateSessionById s sess.id (fun ss => { ss with status := "expired" }))
      else if sess.status = "pending" ∨ sess.userId = none then
        (.ok .pending, s)
      else
        match sess.userId with
        | none => (.ok .pending, s)
        | some uid =>
          match findUser s uid with
          | none => (.error ⟨500, "Failed to retrieve user details"⟩, s)
          | some u =>
            (.ok (.connected sess.status sess.authToken u.id u.totalPoints), s)

/-- Body of `POST /api/connect-session`. -/
structure ConnectSessionRequest where
  sessionToken : String
  authToken : String

/-- `connectSession` of `session.go` (the Bind transition).  `resolve`
models `verifyJWT`: the partial map from bearer credentials to user
identities.  Order of checks as in the code: input presence, JWT,
session lookup, expiry, already-bound conflict; on success stores the
user id and credential and moves the status to `connected`. -/
def connectSession (resolve : String → Option Nat) (req : ConnectSessionRequest)
    (now : Nat) (s : DBState) : Except ApiErr Unit × DBState :=
  if req.sessionToken = "" ∨ req.authToken = "" then
    (.error ⟨400, "Session token and auth token are required"⟩, s)
  else
    match resolve req.authToken with
    | none => (.error ⟨401, "Invalid auth token"⟩, s)
    | some uid =>
      match findSession s req.sessionToken with
      | none => (.error ⟨404, "Session not found"⟩, s)
      | some sess =>
        if sess.expiresAt < now then (.error ⟨401, "Session has expired"⟩, s)
        else if sess.userId.isSome then
          (.error ⟨409, "Session is already connected to a user"⟩, s)
        else
          (.ok (), updateSessionById s sess.id (fun ss =>
            { ss with userId := some uid, authToken := some req.authToken,
                      status := "connected" }))

/-- `endSession` of `session.go`: one unconditional
`UPDATE station_sessions SET status = 'expired', ended_at = ? WHERE
session_token = ?`; 404 only when the `UPDATE` matched no row (SQLite's
`changes()` counts every row matched by the `WHERE` clause). -/
def endSession (req : String) (now : Nat) (s : DBState) :
    Except ApiErr Unit × DBState :=
  if req = "" then (.error ⟨400, "Session token is required"⟩, s)
  else
    match findSession s req with
    | none => (.error ⟨404, "Session not found"⟩, s)
    | some _ =>
      (.ok (), { s with stationSessions := s.stationSessions.map (fun ss =>
        if ss.sessionTok = req then { ss with status := "expired", endedAt := some now }
        else ss) })

/-- Body of `POST /api/deposit`. -/
structure SessionDepositRequest where
  material : String
  weight : ℚ
  sessionToken : String

/-- Success payload of the sessioned `deposit`. -/
structure DepositOut where
  newBalance : Int
  pointsEarned : Int
  transactionId : Nat
deriving DecidableEq

/-- `deposit` of `session.go` (the sessioned earn path): validates the
inputs, resolves the session, requires the session's bound user to equal
the caller, computes points (rejecting 0), then in one SQL transaction
inserts the ledger row, adds the points, and sets the session status to
`active`.  Note the code never reads `status` or `expires_at` here. -/
def deposit (userId : Nat) (req : SessionDepositRequest) (s : DBState) :
    Except ApiErr DepositOut × DBState :=
  if req.material = "" ∨ req.weight ≤ 0 ∨ req.sessionToken = "" then
    (.error ⟨400, "Material, weight, and session token are required"⟩, s)
  else
    match findSession s req.sessionToken with
    | none => (.error ⟨404, "Session not found"⟩, s)
    | some sess =>
      if sess.userId ≠ some userId then
        (.error ⟨403, "Session not linked to this user"⟩, s)
      else
        let points := CalculatePoints req.material req.weight
        if points = 0 then (.error ⟨400, "Invalid material type"⟩, s)
        else
          let txnId := s.nextTxnId
          let s1 := insertTxn s (fun i =>
            ⟨i, userId, "deposit", 0, req.material, req.weight, points, 1,
             some req.sessionToken⟩)
          let s2 := updateUserPoints s1 userId points
          let s3 := updateSessionById s2 sess.id (fun ss => { ss with status := "active" })
          (.ok ⟨balanceOf s3 userId, points, txnId⟩, s3)

/-- Body of `POST /api/auth/register`. -/
structure RegisterRequest where
  email : String
  password : String
  fullName : String

/-- `register` of `auth.go`: inserts a user with `total_points = 0`;
a duplicate email hits the `UNIQUE` constraint and returns 409. -/
def register (req : RegisterRequest) (s : DBState) : Except ApiErr Nat × DBState :=
  if req.email = "" ∨ req.password = "" ∨ req.fullName = "" then
    (.error ⟨400, "Email, password, and full name are required"⟩, s)
  else if s.users.any (fun u => u.email == req.email) then
    (.error ⟨409, "Email already exists"⟩, s)
  else
    (.ok s.nextUserId,
     { s with users := s.users ++ [⟨s.nextUserId, req.email, 0⟩],
              nextUserId := s.nextUserId + 1 })

/-- The store as `InitDB` of the `database` package leaves it: empty
tables except the two seeded demo accounts, user 1 with 1000 points and
user 2 with 2500 points — and no ledger rows backing either balance. -/
def initState : DBState where
  users := [⟨1, "dummy@trash2cash.com", 1000⟩, ⟨2, "demo@trash2cash.com", 2500⟩]
  transactions := []
  redemptions := []
  stationSessions := []
  nextUserId := 3
  nextTxnId := 1
  nextRedemptionId := 1
  nextSessionId := 1

/-- One public mutating operation of the API.  The earn/spend steps carry
the fact that the acting identity is a registered user: the JWT
middleware only accepts tokens the server signed, which are minted at
login/registration for rows of `users`, and rows of `users` are never
deleted. -/
inductive Step : DBState → DBState → Prop where
  | register (req : RegisterRequest) (s : DBState) :
      Step s (T2C.register req s).2
  | createTransaction (uid : Nat) (req : DepositRequest) (s : DBState)
      (h : userExists s uid) : Step s (T2C.createTransaction uid req s).2
  | processDeposit (uid : Nat) (req : DepositRequest) (s : DBState)
      (h : userExists s uid) : Step s (T2C.processDeposit uid req s).2
  | redeemPoints (uid : Nat) (req : RedeemRequest) (s : DBState)
      (h : userExists s uid) : Step s (T2C.redeemPoints uid req s).2
  | deposit (uid : Nat) (req : SessionDepositRequest) (s : DBState)
      (h : userExists s uid) : Step s (T2C.deposit uid req s).2
  | requestSession (tok : String) (req : RequestSessionRequest) (now : Nat)
      (s : DBState) : Step s (T2C.requestSession tok req now s).2
  | checkSession (req : String) (now : Nat) (s : DBState) :
      Step s (T2C.checkSession req now s).2
  | connectSession (resolve : String → Option Nat) (req : ConnectSessionRequest)
      (now : Nat) (s : DBState) : Step s (T2C.connectSession resolve req now s).2
  | endSession (req : String) (now : Nat) (s : DBState) :
      Step s (T2C.endSession req now s).2

/-- States reachable from the seeded initial store through the public
operations. -/
inductive Reachable : DBState → Prop where
  | init : Reachable initState
  | step {s s' : DBState} : Reachable s → Step s s' → Reachable s'

/-- Sum of the signed point deltas of all committed ledger entries of an
owner: `sum(points_earned over transactions rows with this user_id)`. -/
def txnSum (s : DBState) (uid : Nat) : Int :=
  ((s.transactions.filter (fun t => t.userId == uid)).map Txn.pointsEarned).sum

/-- The balance the seeding of `InitDB` grants without a ledger entry. -/
def seedOffset (uid : Nat) : Int :=
  if uid = 1 then 1000 else if uid = 2 then 2500 else 0

/-- The ledger/projection coupling that actually holds of the store: the
cached balance exceeds the entry sum by exactly the seeded offset. -/
def balancedOffset (s : DBState) : Prop :=
  ∀ uid, balanceOf s uid = txnSum s uid + seedOffset uid

/-- No committed ledger entry carries a zero point delta. -/
def noZeroDelta (s : DBState) : Prop :=
  ∀ t ∈ s.transactions, t.pointsEarned ≠ 0

/-- Credential resolution used in the concrete scenarios: one valid JWT
per seeded demo user. -/
def demoResolve : String → Option Nat := fun t =>
  if t = "jwt1" then some 1 else if t = "jwt2" then some 2 else none

/-- Scenario state: a fresh station session `tok1` created at time 0. -/
def sessionCreated : DBState := (requestSession "tok1" ⟨""⟩ 0 initState).2

/-- Scenario state: demo user 1 has bound `tok1` at time 10. -/
def sessionBound : DBState :=
  (connectSession demoResolve ⟨"tok1", "jwt1"⟩ 10 sessionCreated).2

/-- Scenario state: user 1 has deposited 2 kg of metal through `tok1`. -/
def sessionActive : DBState := (deposit 1 ⟨"metal", 2, "tok1"⟩ sessionBound).2

/-- Scenario state: the session was ended at time 20. -/
def sessionEnded : DBState := (endSession "tok1" 20 sessionActive).2

theorem find?_map_of_id_eq {l : List GoUser} {g : GoUser → GoUser}
    (hg : ∀ u, (g u).id = u.id) (uid : Nat) :
    (l.map g).find? (fun u => u.id == uid) =
      (l.find? (fun u => u.id == uid)).map g := by
  induction l with
  | nil => rfl
  | cons a tl ih =>
    simp only [List.map_cons, List.find?]
    rw [hg a]
    cases h : (a.id == uid) <;> simp [ih]

theorem balanceOf_updateUserPoints (s : DBState) (uid : Nat) (delta : Int)
    (uid' : Nat) :
    balanceOf (updateUserPoints s uid delta) uid' =
      balanceOf s uid' + (if uid' = uid ∧ userExists s uid' then delta else 0) := by
  unfold balanceOf updateUserPoints findUser userExists T2C.findUser
  rw [find?_map_of_id_eq (fun u => by split <;> rfl)]
  cases hf : s.users.find? (fun u => u.id == uid') with
  | none => simp
  | some u =>
    have hu : u.id = uid' := by simpa using List.find?_some hf
    by_cases h : uid' = uid <;> simp [hu, h]

theorem userExists_updateUserPoints (s : DBState) (uid : Nat) (delta : Int)
    (uid' : Nat) :
    userExists (updateUserPoints s uid delta) uid' = userExists s uid' := by
  unfold userExists findUser updateUserPoints
  rw [find?_map_of_id_eq (fun u => by split <;> rfl)]
  cases s.users.find? (fun u => u.id == uid') <;> simp

theorem txnSum_updateUserPoints (s : DBState) (uid : Nat) (delta : Int)
    (uid' : Nat) : txnSum (updateUserPoints s uid delta) uid' = txnSum s uid' := rfl

theorem txnSum_insertTxn (s : DBState) (t : Nat → Txn) (uid : Nat) :
    txnSum (insertTxn s t) uid =
      txnSum s uid +
        (if (t s.nextTxnId).userId = uid then (t s.nextTxnId).pointsEarned else 0) := by
  unfold txnSum insertTxn
  simp only [List.filter_append, List.map_append, List.sum_append, List.filter_cons]
  by_cases h : (t s.nextTxnId).userId = uid <;> simp [h]

theorem balanceOf_insertTxn (s : DBState) (t : Nat → Txn) (uid : Nat) :
    balanceOf (insertTxn s t) uid = balanceOf s uid := rfl

theorem userExists_insertTxn (s : DBState) (t : Nat → Txn) (uid : Nat) :
    userExists (insertTxn s t) uid = userExists s uid := rfl

theorem balanceOf_updateSessionById (s : DBState) (sid : Nat)
    (f : StationSession → StationSession) (uid : Nat) :
    balanceOf (updateSessionById s sid f) uid = balanceOf s uid := rfl

theorem txnSum_updateSessionById (s : DBState) (sid : Nat)
    (f : StationSession → StationSession) (uid : Nat) :
    txnSum (updateSessionById s sid f) uid = txnSum s uid := rfl

theorem balancedOffset_init : balancedOffset initState := by
  intro uid
  unfold balanceOf txnSum seedOffset findUser initState
  by_cases h1 : uid = 1
  · simp [h1]
  · by_cases h2 : uid = 2
    · simp [h2]
    · have e1 : ((1 : Nat) == uid) = false := beq_eq_false_iff_ne.mpr (Ne.symm h1)
      have e2 : ((2 : Nat) == uid) = false := beq_eq_false_iff_ne.mpr (Ne.symm h2)
      simp [List.find?, e1, e2, h1, h2]

theorem balanceOf_append_user (s : DBState) (n : Nat) (e : String) (uid : Nat) :
    balanceOf { s with users := s.users ++ [⟨n, e, 0⟩],
                       nextUserId := s.nextUserId + 1 } uid = balanceOf s uid := by
  unfold balanceOf findUser
  simp only
  cases hf : s.users.find? (fun u => u.id == uid) with
  | some u => simp [List.find?_append, hf]
  | none =>
    simp only [List.find?_append, hf, Option.none_orElse, List.find?]
    cases h : (n == uid) <;> simp

/-- The earn write pattern shared by `createTransaction`, `processDeposit`
and `deposit`: one ledger row for `uid` followed by the matching
`total_points` update keeps the offset invariant. -/
theorem balancedOffset_write (s : DBState) (uid : Nat) (points : Int)
    (t : Nat → Txn) (ht : ∀ i, (t i).userId = uid ∧ (t i).pointsEarned = points)
    (hex : userExists s uid) (h : balancedOffset s) :
    balancedOffset (updateUserPoints (insertTxn s t) uid points) := by
  intro uid'
  rw [balanceOf_updateUserPoints, userExists_insertTxn, balanceOf_insertTxn,
    txnSum_updateUserPoints, txnSum_insertTxn, (ht s.nextTxnId).1,
    (ht s.nextTxnId).2, h uid']
  by_cases huid : uid' = uid
  · subst huid
    simp [hex]
    omega
  · simp [huid, Ne.symm huid]

theorem balancedOffset_createTransaction (uid : Nat) (req : DepositRequest)
    (s : DBState) (hex : userExists s uid) (h : balancedOffset s) :
    balancedOffset (createTransaction uid req s).2 := by
  unfold createTransaction
  dsimp only
  split
  · exact h
  · exact balancedOffset_write s uid _ _ (fun i => ⟨rfl, rfl⟩) hex h

theorem balancedOffset_processDeposit (uid : Nat) (req : DepositRequest)
    (s : DBState) (hex : userExists s uid) (h : balancedOffset s) :
    balancedOffset (processDeposit uid req s).2 := by
  unfold processDeposit
  dsimp only
  split
  · exact h
  · exact balancedOffset_write s uid _ _ (fun i => ⟨rfl, rfl⟩) hex h

theorem balancedOffset_deposit (uid : Nat) (req : SessionDepositRequest)
    (s : DBState) (hex : userExists s uid) (h : balancedOffset s) :
    balancedOffset (deposit uid req s).2 := by
  unfold deposit
  dsimp only
  split
  · exact h
  · split
    · exact h
    · split
      · exact h
      · split
        · exact h
        · intro uid'
          rw [balanceOf_updateSessionById, txnSum_updateSessionById]
          exact balancedOffset_write s uid _ _ (fun i => ⟨rfl, rfl⟩) hex h uid'

/-- The spend write pattern of `redeemPoints`: the `total_points`
deduction followed by the matching negative ledger row keeps the offset
invariant. -/
theorem balancedOffset_write_spend (s : DBState) (uid : Nat) (points : Int)
    (t : Nat → Txn) (ht : ∀ i, (t i).userId = uid ∧ (t i).pointsEarned = points)
    (hex : userExists s uid) (h : balancedOffset s) :
    balancedOffset (insertTxn (updateUserPoints s uid points) t) := by
  intro uid'
  rw [txnSum_insertTxn, balanceOf_insertTxn, balanceOf_updateUserPoints,
    txnSum_updateUserPoints, (ht _).1, (ht _).2, h uid']
  by_cases huid : uid' = uid
  · subst huid
    simp [hex]
    omega
  · simp [huid, Ne.symm huid]

theorem balancedOffset_redeemPoints (uid : Nat) (req : RedeemRequest)
    (s : DBState) (hex : userExists s uid) (h : balancedOffset s) :
    balancedOffset (redeemPoints uid req s).2 := by
  unfold redeemPoints
  dsimp only
  split
  · exact h
  · split
    · exact h
    · exact balancedOffset_write_spend _ uid _ _ (fun i => ⟨rfl, rfl⟩) hex h

theorem balancedOffset_register (req : RegisterRequest) (s : DBState)
    (h : balancedOffset s) : balancedOffset (register req s).2 := by
  unfold register
  split
  · exact h
  · split
    · exact h
    · intro uid
      rw [balanceOf_append_user]
      exact h uid

theorem balancedOffset_step {s s' : DBState} (hs : Step s s')
    (h : balancedOffset s) : balancedOffset s' := by
  cases hs with
  | register req s => exact balancedOffset_register req s h
  | createTransaction uid req s hex => exact balancedOffset_createTransaction uid req s hex h
  | processDeposit uid req s hex => exact balancedOffset_processDeposit uid req s hex h
  | redeemPoints uid req s hex => exact balancedOffset_redeemPoints uid req s hex h
  | deposit uid req s hex => exact balancedOffset_deposit uid req s hex h
  | requestSession tok req now s =>
    unfold requestSession
    try dsimp only
    repeat' split
    all_goals exact h
  | checkSession req now s =>
    unfold checkSession
    try dsimp only
    repeat' split
    all_goals exact h
  | connectSession resolve req now s =>
    unfold connectSession
    try dsimp only
    repeat' split
    all_goals exact h
  | endSession req now s =>
    unfold endSession
    try dsimp only
    repeat' split
    all_goals exact h

theorem reachable_balancedOffset {s : DBState} (h : Reachable s) :
    balancedOffset s := by
  induction h with
  | init => exact balancedOffset_init
  | step _ hs ih => exact balancedOffset_step hs ih

theorem noZeroDelta_of_append (s s' : DBState) (t : Txn)
    (htr : s'.transactions = s.transactions ++ [t]) (hp : t.pointsEarned ≠ 0)
    (h : noZeroDelta s) : noZeroDelta s' := by
  intro x hx
  rw [htr] at hx
  rcases List.mem_append.mp hx with h1 | h2
  · exact h x h1
  · rw [List.mem_singleton.mp h2]
    exact hp

theorem noZeroDelta_step {s s' : DBState} (hs : Step s s')
    (h : noZeroDelta s) : noZeroDelta s' := by
  cases hs with
  | register req s =>
    unfold register
    try dsimp only
    repeat' split
    all_goals exact h
  | createTransaction uid req s hex =>
    unfold createTransaction
    dsimp only
    split
    · exact h
    · rename_i hp
      exact noZeroDelta_of_append s _ _ rfl hp h
  | processDeposit uid req s hex =>
    unfold processDeposit
    dsimp only
    split
    · exact h
    · rename_i hp
      exact noZeroDelta_of_append s _ _ rfl hp h
  | redeemPoints uid req s hex =>
    unfold redeemPoints
    dsimp only
    split
    · exact h
    · split
      · exact h
      · rename_i hp _
        refine noZeroDelta_of_append s _ _ rfl ?_ h
        show (-req.points : Int) ≠ 0
        omega
  | deposit uid req s hex =>
    unfold deposit
    dsimp only
    split
    · exact h
    · split
      · exact h
      · split
        · exact h
        · split
          · exact h
          · rename_i hp
            exact noZeroDelta_of_append s _ _ rfl hp h
  | requestSession tok req now s =>
    unfold requestSession
    try dsimp only
    repeat' split
    all_goals exact h
  | checkSession req now s =>
    unfold checkSession
    try dsimp only
    repeat' split
    all_goals exact h
  | connectSession resolve req now s =>
    unfold connectSession
    try dsimp only
    repeat' split
    all_goals exact h
  | endSession req now s =>
    unfold endSession
    try dsimp only
    repeat' split
    all_goals exact h

theorem reachable_noZeroDelta {s : DBState} (h : Reachable s) : noZeroDelta s := by
  induction h with
  | init => intro t ht; cases ht
  | step _ hs ih => exact noZeroDelta_step hs ih

theorem userExists_of_balance_pos {s : DBState} {uid : Nat}
    (h : 0 < balanceOf s uid) : userExists s uid := by
  unfold balanceOf at h
  unfold userExists
  cases hf : findUser s uid with
  | none => rw [hf] at h; simp at h
  | some u => simp [hf]

theorem find?_map_of_tok_eq {l : List StationSession}
    {g : StationSession → StationSession}
    (hg : ∀ ss, (g ss).sessionTok = ss.sessionTok) (tok : String) :
    (l.map g).find? (fun ss => ss.sessionTok == tok) =
      (l.find? (fun ss => ss.sessionTok == tok)).map g := by
  induction l with
  | nil => rfl
  | cons a tl ih =>
    simp only [List.map_cons, List.find?]
    rw [hg a]
    cases h : (a.sessionTok == tok) <;> simp [ih]

/-- `endSession` on an existing token always succeeds and rewrites the
row to `status = 'expired', ended_at = now`, whatever its prior state. -/
theorem endSession_found (req : String) (now : Nat) (s : DBState)
    (sess : StationSession) (hfind : findSession s req = some sess)
    (hne : req ≠ "") :
    (endSession req now s).1 = .ok () ∧
    findSession (endSession req now s).2 req =
      some { sess with status := "expired", endedAt := some now } := by
  unfold endSession
  rw [if_neg hne, hfind]
  refine ⟨rfl, ?_⟩
  unfold findSession at hfind ⊢
  simp only
  rw [find?_map_of_tok_eq (fun ss => by split <;> rfl), hfind]
  have htok : sess.sessionTok = req := by simpa using List.find?_some hfind
  simp [htok]

theorem CalculatePoints_zero_weight (itemType : String) :
    CalculatePoints itemType 0 = 0 := by
  unfold CalculatePoints
  cases materialRates itemType with
  | none => rfl
  | some rate => simp [goTrunc]

/-- C1: the first and last parts of the claim fail on the code: `InitDB`
seeds demo user 1 with 1000 points and no ledger entries, so already in
the initial (hence reachable) state the stored projection differs from
the entry sum. -/
theorem C1_counterexample :
    Reachable initState ∧ balanceOf initState 1 ≠ txnSum initState 1 := by
  refine ⟨Reachable.init, ?_⟩
  norm_num +decide [balanceOf, txnSum, findUser, initState, List.find?]

/-- C1 (amended): in every state reachable through the public operations,
each owner's stored balance projection equals the sum of the signed
deltas of their committed ledger entries plus the fixed offset `InitDB`
seeded without ledger backing (1000 for demo user 1, 2500 for demo user
2, 0 for every other owner); each entry-writing operation moves the
projection by exactly the entry's delta. -/
theorem C1_balance_is_entry_sum_plus_seed {s : DBState} (h : Reachable s)
    (uid : Nat) : balanceOf s uid = txnSum s uid + seedOffset uid :=
  reachable_balancedOffset h uid

theorem C1_witness :
    balanceOf initState 1 = txnSum initState 1 + seedOffset 1 :=
  C1_balance_is_entry_sum_plus_seed Reachable.init 1

/-- C3: for every material kind present in the rate table and positive
weight, the points awarded are `⌊weight * rate⌋` — truncation, not
rounding: plastic (rate 10) at 1.5 kg gives 15 and at 0.33 kg gives 3. -/
theorem C3_points_are_floor (itemType : String) (rate : Int) (weight : ℚ)
    (hrate : materialRates itemType = some rate) (hw : 0 < weight) :
    CalculatePoints itemType weight = ⌊weight * (rate : ℚ)⌋ ∧
    CalculatePoints "plastic" (3/2) = 15 ∧
    CalculatePoints "plastic" (33/100) = 3 := by
  refine ⟨?_, ?_, ?_⟩
  · unfold CalculatePoints
    rw [hrate]
    have hr : (0 : ℚ) < (rate : ℚ) := by exact_mod_cast materialRates_pos hrate
    exact goTrunc_of_nonneg _ (by positivity)
  · norm_num +decide [CalculatePoints, materialRates, goTrunc]
  · norm_num +decide [CalculatePoints, materialRates, goTrunc]

theorem C3_witness :
    materialRates "plastic" = some 10 ∧ (0 : ℚ) < 33/100 ∧
    CalculatePoints "plastic" (33/100) = ⌊(33/100 : ℚ) * ((10 : Int) : ℚ)⌋ :=
  ⟨by norm_num [materialRates], by norm_num,
   (C3_points_are_floor "plastic" 10 (33/100)
     (by norm_num [materialRates]) (by norm_num)).1⟩

/-- C2: `deposit` never reads `status` or `expires_at`, contradicting its
own comment "Verify session is active and linked to the user": running
the claim's end-to-end scenario (create, bind user 1, deposit 2 kg metal
for 30 points, end), the session sits in the terminal `expired` state,
yet a further deposit on the same token by the bound user succeeds,
writes a ledger entry, and flips the status back to `active` instead of
failing with a terminal-state error. -/
theorem C2_terminal_states_not_enforced :
    (deposit 1 ⟨"metal", 2, "tok1"⟩ sessionBound).1 = .ok ⟨1030, 30, 1⟩ ∧
    (findSession sessionActive "tok1").map StationSession.status = some "active" ∧
    (findSession sessionEnded "tok1").map StationSession.status = some "expired" ∧
    (deposit 1 ⟨"metal", 2, "tok1"⟩ sessionEnded).1 = .ok ⟨1060, 30, 2⟩ ∧
    (findSession (deposit 1 ⟨"metal", 2, "tok1"⟩ sessionEnded).2 "tok1").map
      StationSession.status = some "active" := by
  norm_num +decide [sessionEnded, sessionActive, sessionBound, sessionCreated,
    deposit, endSession, connectSession, requestSession, demoResolve, initState,
    findSession, findUser, balanceOf, updateUserPoints, updateSessionById,
    insertTxn, CalculatePoints, materialRates, goTrunc, List.find?]

/-- C4: refuted — the manual-entry path only rejects deposits whose
computed points are 0, so a negative weight with a nonzero truncated
product passes: plastic at −1 kg is accepted, writes a −10-point
ledger entry, and lowers the seeded balance 1000 to 990. -/
theorem C4_counterexample :
    (createTransaction 1 ⟨"plastic", -1⟩ initState).1 = .ok ⟨1, -10, 990⟩ ∧
    (createTransaction 1 ⟨"plastic", -1⟩ initState).2.transactions =
      [⟨1, 1, "deposit", 0, "plastic", -1, -10, 1, none⟩] ∧
    balanceOf (createTransaction 1 ⟨"plastic", -1⟩ initState).2 1 = 990 := by
  norm_num +decide [createTransaction, CalculatePoints, materialRates, goTrunc,
    initState, balanceOf, findUser, updateUserPoints, insertTxn, List.find?]

/-- C4 (amended): the session deposit path rejects every `weight <= 0`
with the invalid-input error and writes nothing; the direct/manual entry
paths (`createTransaction`, `processDeposit`) reject only a deposit whose
computed points are 0 — which covers `weight = 0` but not every negative
weight — with the invalid-item-type error, writing nothing. -/
theorem C4_nonpositive_weight (uid : Nat) (s : DBState) :
    (∀ req : SessionDepositRequest, req.weight ≤ 0 →
      deposit uid req s =
        (.error ⟨400, "Material, weight, and session token are required"⟩, s)) ∧
    (∀ req : DepositRequest, req.weight = 0 →
      createTransaction uid req s = (.error ⟨400, "Invalid item type"⟩, s)) ∧
    (∀ req : DepositRequest, req.weight = 0 →
      processDeposit uid req s = (.error ⟨400, "Invalid item type"⟩, s)) := by
  refine ⟨fun req hw => ?_, fun req hw => ?_, fun req hw => ?_⟩
  · unfold deposit
    rw [if_pos (Or.inr (Or.inl hw))]
  · unfold createTransaction
    rw [if_pos (by rw [hw]; exact CalculatePoints_zero_weight req.itemType)]
  · unfold processDeposit
    rw [if_pos (by rw [hw]; exact CalculatePoints_zero_weight req.itemType)]

theorem C4_witness :
    deposit 1 ⟨"plastic", -1, "tok1"⟩ initState =
      (.error ⟨400, "Material, weight, and session token are required"⟩, initState) ∧
    createTransaction 1 ⟨"plastic", 0⟩ initState =
      (.error ⟨400, "Invalid item type"⟩, initState) ∧
    processDeposit 1 ⟨"plastic", 0⟩ initState =
      (.error ⟨400, "Invalid item type"⟩, initState) :=
  ⟨(C4_nonpositive_weight 1 initState).1 ⟨"plastic", -1, "tok1"⟩ (by norm_num),
   (C4_nonpositive_weight 1 initState).2.1 ⟨"plastic", 0⟩ rfl,
   (C4_nonpositive_weight 1 initState).2.2 ⟨"plastic", 0⟩ rfl⟩

/-- C5: `redeemPoints` rejects `points <= 0` with the invalid-amount
error and `points > balance` with the insufficient-points error, both
leaving the store untouched; otherwise it succeeds, reports cash equal
to `points * 10` (100 points = Rp 1000), and lowers the balance by
exactly the requested points, leaving it nonnegative. -/
theorem C5_redeem_checks (uid : Nat) (req : RedeemRequest) (s : DBState) :
    (req.points ≤ 0 →
      redeemPoints uid req s = (.error ⟨400, "Invalid points amount"⟩, s)) ∧
    (balanceOf s uid < req.points → ¬req.points ≤ 0 →
      redeemPoints uid req s = (.error ⟨400, "Insufficient points"⟩, s)) ∧
    (0 < req.points → req.points ≤ balanceOf s uid →
      (redeemPoints uid req s).1 =
        .ok ⟨s.nextRedemptionId, req.points, (req.points : ℚ) * 10,
             balanceOf s uid - req.points⟩ ∧
      balanceOf (redeemPoints uid req s).2 uid = balanceOf s uid - req.points ∧
      0 ≤ balanceOf s uid - req.points) := by
  refine ⟨fun hp => ?_, fun hb hp => ?_, fun hp hb => ?_⟩
  · unfold redeemPoints
    rw [if_pos hp]
  · unfold redeemPoints
    rw [if_neg hp]
    dsimp only
    rw [if_pos hb]
  · have hex : userExists s uid := userExists_of_balance_pos (lt_of_lt_of_le hp hb)
    have hbal : balanceOf (redeemPoints uid req s).2 uid =
        balanceOf s uid - req.points := by
      unfold redeemPoints
      rw [if_neg (not_le.mpr hp)]
      dsimp only
      rw [if_neg (not_lt.mpr hb)]
      dsimp only
      rw [balanceOf_insertTxn, balanceOf_updateUserPoints]
      have hex1 : userExists { s with
          redemptions := s.redemptions ++
            [⟨s.nextRedemptionId, uid, req.points, (req.points : ℚ) * 10,
              req.method, "pending", req.accountInfo⟩],
          nextRedemptionId := s.nextRedemptionId + 1 } uid = true := hex
      simp [hex1]
      have hbal1 : balanceOf { s with
          redemptions := s.redemptions ++
            [⟨s.nextRedemptionId, uid, req.points, (req.points : ℚ) * 10,
              req.method, "pending", req.accountInfo⟩],
          nextRedemptionId := s.nextRedemptionId + 1 } uid = balanceOf s uid := rfl
      rw [hbal1]
      ring
    refine ⟨?_, hbal, by omega⟩
    have hout : (redeemPoints uid req s).1 =
        .ok ⟨s.nextRedemptionId, req.points, (req.points : ℚ) * 10,
             balanceOf (redeemPoints uid req s).2 uid⟩ := by
      unfold redeemPoints
      rw [if_neg (not_le.mpr hp)]
      dsimp only
      rw [if_neg (not_lt.mpr hb)]
    rw [hout, hbal]

theorem C5_witness :
    redeemPoints 1 ⟨2000, "bank", "acct"⟩ initState =
      (.error ⟨400, "Insufficient points"⟩, initState) ∧
    redeemPoints 1 ⟨0, "bank", "acct"⟩ initState =
      (.error ⟨400, "Invalid points amount"⟩, initState) ∧
    (redeemPoints 1 ⟨400, "bank", "acct"⟩ initState).1 =
      .ok ⟨1, 400, 4000, 600⟩ := by
  have h1 := (C5_redeem_checks 1 ⟨2000, "bank", "acct"⟩ initState).2.1
    (by norm_num +decide [balanceOf, findUser, initState, List.find?]) (by norm_num)
  have h2 := (C5_redeem_checks 1 ⟨0, "bank", "acct"⟩ initState).1 (by norm_num)
  have h3 := ((C5_redeem_checks 1 ⟨400, "bank", "acct"⟩ initState).2.2
    (by norm_num)
    (by norm_num +decide [balanceOf, findUser, initState, List.find?])).1
  refine ⟨h1, h2, ?_⟩
  rw [h3]
  norm_num +decide [balanceOf, findUser, initState, List.find?]

/-- C6: once a session has a bound user, every further Bind call fails
and leaves the store — in particular the bound user — untouched; when
the second caller presents a resolvable credential and the deadline has
not passed, the failure is the 409 already-connected conflict. -/
theorem C6_first_bind_wins (resolve : String → Option Nat)
    (req : ConnectSessionRequest) (now : Nat) (s : DBState)
    (sess : StationSession) (hfind : findSession s req.sessionToken = some sess)
    (hbound : sess.userId.isSome) :
    (∃ e, (connectSession resolve req now s).1 = .error e) ∧
    (connectSession resolve req now s).2 = s ∧
    (∀ uid, resolve req.authToken = some uid → ¬sess.expiresAt < now →
      req.sessionToken ≠ "" → req.authToken ≠ "" →
      (connectSession resolve req now s).1 =
        .error ⟨409, "Session is already connected to a user"⟩) := by
  unfold connectSession
  by_cases hin : req.sessionToken = "" ∨ req.authToken = ""
  · rw [if_pos hin]
    refine ⟨⟨_, rfl⟩, rfl, fun uid hres hexp hts hta => ?_⟩
    rcases hin with h | h
    · exact absurd h hts
    · exact absurd h hta
  · rw [if_neg hin]
    cases hres : resolve req.authToken with
    | none => exact ⟨⟨_, rfl⟩, rfl, fun uid h => by simp [hres] at h⟩
    | some uid =>
      simp only [hfind]
      by_cases hexp : sess.expiresAt < now
      · rw [if_pos hexp]
        exact ⟨⟨_, rfl⟩, rfl, fun uid' _ h => absurd hexp h⟩
      · rw [if_neg hexp]
        rw [if_pos hbound]
        exact ⟨⟨_, rfl⟩, rfl, fun uid' _ _ _ _ => rfl⟩

theorem C6_witness :
    (connectSession demoResolve ⟨"tok1", "jwt2"⟩ 15 sessionBound).1 =
      .error ⟨409, "Session is already connected to a user"⟩ ∧
    (connectSession demoResolve ⟨"tok1", "jwt2"⟩ 15 sessionBound).2 =
      sessionBound := by
  have hfind : findSession sessionBound "tok1" =
      some ⟨1, "tok1", "default", some 1, "connected", some "jwt1", 300, none⟩ := by
    norm_num +decide [sessionBound, sessionCreated, connectSession, requestSession,
      demoResolve, initState, findSession, updateSessionById, List.find?]
  have h := C6_first_bind_wins demoResolve ⟨"tok1", "jwt2"⟩ 15 sessionBound
    _ hfind rfl
  exact ⟨h.2.2 2 rfl (by norm_num) (by decide) (by decide), h.2.1⟩

/-- C7: refuted — ending the freshly created (pending, non-terminal)
session records the end time but writes the status `expired`, not a
distinct `ended` status; no code path ever stores `ended`. -/
theorem C7_counterexample :
    (findSession sessionCreated "tok1").map StationSession.status =
      some "pending" ∧
    (endSession "tok1" 50 sessionCreated).1 = .ok () ∧
    (findSession (endSession "tok1" 50 sessionCreated).2 "tok1").map
      StationSession.status = some "expired" ∧
    (findSession (endSession "tok1" 50 sessionCreated).2 "tok1").map
      StationSession.status ≠ some "ended" := by
  norm_num +decide [sessionCreated, endSession, requestSession, initState,
    findSession, List.find?]

/-- C7 (amended): End, called on any session whose token exists — in
particular one in a non-terminal state — succeeds, sets the status to
`expired` (the code's single terminal marker; there is no separate
`ended` status) and records the end time. -/
theorem C7_end_sets_expired_and_time (req : String) (now : Nat) (s : DBState)
    (sess : StationSession) (hfind : findSession s req = some sess)
    (hne : req ≠ "") :
    (endSession req now s).1 = .ok () ∧
    findSession (endSession req now s).2 req =
      some { sess with status := "expired", endedAt := some now } :=
  endSession_found req now s sess hfind hne

theorem C7_witness :
    (endSession "tok1" 50 sessionCreated).1 = .ok () ∧
    findSession (endSession "tok1" 50 sessionCreated).2 "tok1" =
      some ⟨1, "tok1", "default", none, "expired", none, 300, some 50⟩ := by
  have hfind : findSession sessionCreated "tok1" =
      some ⟨1, "tok1", "default", none, "pending", none, 300, none⟩ := by
    norm_num +decide [sessionCreated, requestSession, initState, findSession,
      List.find?]
  exact C7_end_sets_expired_and_time "tok1" 50 sessionCreated _ hfind (by decide)

/-- C8: refuted — ending the already-expired session is not a
NotFound-class no-op: the unconditional `UPDATE` matches the row, so the
call reports success and overwrites `ended_at` (20 becomes 30). -/
theorem C8_counterexample :
    (findSession sessionEnded "tok1").map StationSession.status =
      some "expired" ∧
    (findSession sessionEnded "tok1").map StationSession.endedAt =
      some (some 20) ∧
    (endSession "tok1" 30 sessionEnded).1 = .ok () ∧
    (endSession "tok1" 30 sessionEnded).1 ≠
      .error ⟨404, "Session not found"⟩ ∧
    (findSession (endSession "tok1" 30 sessionEnded).2 "tok1").map
      StationSession.endedAt = some (some 30) := by
  have hok : (endSession "tok1" 30 sessionEnded).1 = .ok () := by
    norm_num +decide [sessionEnded, sessionActive, sessionBound, sessionCreated,
      deposit, endSession, connectSession, requestSession, demoResolve, initState,
      findSession, findUser, balanceOf, updateUserPoints, updateSessionById,
      insertTxn, CalculatePoints, materialRates, goTrunc, List.find?]
  refine ⟨?_, ?_, hok, by rw [hok]; exact fun hc => Except.noConfusion hc, ?_⟩ <;>
  norm_num +decide [sessionEnded, sessionActive, sessionBound, sessionCreated,
    deposit, endSession, connectSession, requestSession, demoResolve, initState,
    findSession, findUser, balanceOf, updateUserPoints, updateSessionById,
    insertTxn, CalculatePoints, materialRates, goTrunc, List.find?]

/-- C8 (amended): calling End on an already ended/expired session never
crashes, but it is a second success, not a NotFound no-op: the status
stays `expired` while the recorded end time is overwritten with the new
call time; the NotFound result occurs exactly when the token matches no
session. -/
theorem C8_end_on_terminal_session (req : String) (now : Nat) (s : DBState)
    (sess : StationSession) (hfind : findSession s req = some sess)
    (_hterm : sess.status = "expired") (hne : req ≠ "") :
    (endSession req now s).1 = .ok () ∧
    findSession (endSession req now s).2 req =
      some { sess with status := "expired", endedAt := some now } ∧
    (∀ s' : DBState, findSession s' req = none →
      endSession req now s' = (.error ⟨404, "Session not found"⟩, s')) := by
  obtain ⟨h1, h2⟩ := endSession_found req now s sess hfind hne
  refine ⟨h1, h2, fun s' hnone => ?_⟩
  unfold endSession
  rw [if_neg hne, hnone]

theorem C8_witness :
    (endSession "tok1" 30 sessionEnded).1 = .ok () ∧
    findSession (endSession "tok1" 30 sessionEnded).2 "tok1" =
      some ⟨1, "tok1", "default", some 1, "expired", some "jwt1", 300, some 30⟩ := by
  have hfind : findSession sessionEnded "tok1" =
      some ⟨1, "tok1", "default", some 1, "expired", some "jwt1", 300, some 20⟩ := by
    norm_num +decide [sessionEnded, sessionActive, sessionBound, sessionCreated,
      deposit, endSession, connectSession, requestSession, demoResolve, initState,
      findSession, findUser, balanceOf, updateUserPoints, updateSessionById,
      insertTxn, CalculatePoints, materialRates, goTrunc, List.find?]
  have h := C8_end_on_terminal_session "tok1" 30 sessionEnded _ hfind rfl
    (by decide)
  exact ⟨h.1, h.2.1⟩

/-- C9: a Deposit whose caller differs from the session's bound user (or
whose session has no bound user) changes nothing — same store, same
ledger, same balances — and fails; with well-formed inputs the failure
is the 403 Forbidden error. -/
theorem C9_foreign_deposit_rejected (uid : Nat) (req : SessionDepositRequest)
    (s : DBState) (sess : StationSession)
    (hfind : findSession s req.sessionToken = some sess)
    (hmis : sess.userId ≠ some uid) :
    (deposit uid req s).2 = s ∧
    (∃ e, (deposit uid req s).1 = .error e) ∧
    (deposit uid req s).2.transactions = s.transactions ∧
    (∀ uid', balanceOf (deposit uid req s).2 uid' = balanceOf s uid') ∧
    (req.material ≠ "" → ¬req.weight ≤ 0 → req.sessionToken ≠ "" →
      (deposit uid req s).1 = .error ⟨403, "Session not linked to this user"⟩) := by
  unfold deposit
  by_cases hin : req.material = "" ∨ req.weight ≤ 0 ∨ req.sessionToken = ""
  · rw [if_pos hin]
    exact ⟨rfl, ⟨_, rfl⟩, rfl, fun _ => rfl,
      fun hm hw ht => absurd hin (by simp [hm, hw, ht])⟩
  · rw [if_neg hin]
    simp only [hfind]
    rw [if_pos hmis]
    exact ⟨rfl, ⟨_, rfl⟩, rfl, fun _ => rfl, fun _ _ _ => rfl⟩

theorem C9_witness :
    (deposit 2 ⟨"metal", 2, "tok1"⟩ sessionBound).1 =
      .error ⟨403, "Session not linked to this user"⟩ ∧
    (deposit 2 ⟨"metal", 2, "tok1"⟩ sessionBound).2 = sessionBound := by
  have hfind : findSession sessionBound "tok1" =
      some ⟨1, "tok1", "default", some 1, "connected", some "jwt1", 300, none⟩ := by
    norm_num +decide [sessionBound, sessionCreated, connectSession, requestSession,
      demoResolve, initState, findSession, updateSessionById, List.find?]
  have h := C9_foreign_deposit_rejected 2 ⟨"metal", 2, "tok1"⟩ sessionBound
    _ hfind (by decide)
  exact ⟨h.2.2.2.2 (by decide) (by norm_num) (by decide), h.1⟩

/-- C10: an earn whose material is in the rate table but whose positive
weight truncates to 0 points (plastic at 0.05 kg) is rejected through
the same `points == 0` branch — hence with the same invalid-material
error — as an unknown material, and nothing is written; consequently no
committed ledger entry ever carries a zero point delta. -/
theorem C10_zero_point_earn_rejected (uid : Nat) (req : SessionDepositRequest)
    (s : DBState) (rate : Int)
    (hrate : materialRates req.material = some rate) (hw : 0 < req.weight)
    (hzero : CalculatePoints req.material req.weight = 0)
    (hne : req.sessionToken ≠ "")
    (sess : StationSession) (hfind : findSession s req.sessionToken = some sess)
    (hbound : sess.userId = some uid) :
    deposit uid req s = (.error ⟨400, "Invalid material type"⟩, s) ∧
    (∀ m', materialRates m' = none → m' ≠ "" →
      deposit uid ⟨m', req.weight, req.sessionToken⟩ s =
        (.error ⟨400, "Invalid material type"⟩, s)) ∧
    (∀ s0, Reachable s0 → ∀ t ∈ s0.transactions, t.pointsEarned ≠ 0) := by
  have hm : req.material ≠ "" := by
    intro h
    rw [h] at hrate
    norm_num +decide [materialRates] at hrate
    exact Option.noConfusion hrate
  refine ⟨?_, fun m' hm' hm'' => ?_, fun s0 h0 => reachable_noZeroDelta h0⟩
  · unfold deposit
    rw [if_neg (by push_neg; exact ⟨hm, hw, hne⟩)]
    simp only [hfind]
    rw [if_neg (by simp [hbound]), if_pos hzero]
  · unfold deposit
    rw [if_neg (by push_neg; exact ⟨hm'', hw, hne⟩)]
    simp only [hfind]
    rw [if_neg (by simp [hbound]),
      if_pos (by unfold CalculatePoints; rw [hm'])]

theorem C10_witness :
    deposit 1 ⟨"plastic", 1/20, "tok1"⟩ sessionBound =
      (.error ⟨400, "Invalid material type"⟩, sessionBound) ∧
    deposit 1 ⟨"wood", 1/20, "tok1"⟩ sessionBound =
      (.error ⟨400, "Invalid material type"⟩, sessionBound) := by
  have hfind : findSession sessionBound "tok1" =
      some ⟨1, "tok1", "default", some 1, "connected", some "jwt1", 300, none⟩ := by
    norm_num +decide [sessionBound, sessionCreated, connectSession, requestSession,
      demoResolve, initState, findSession, updateSessionById, List.find?]
  have h := C10_zero_point_earn_rejected 1 ⟨"plastic", 1/20, "tok1"⟩ sessionBound
    10 (by norm_num [materialRates]) (by norm_num)
    (by norm_num +decide [CalculatePoints, materialRates, goTrunc])
    (by decide) _ hfind rfl
  exact ⟨h.1, h.2.1 "wood" (by norm_num +decide [materialRates]) (by decide)⟩

end T2C
